import Mathlib

/-!
Shallow embedding of `make_webshots.py` from dandi/dandi-api-webshots-tools,
covering the parts that the verified claims are about:

* `Webshotter.wait_no_progressbar` and `Webshotter.process_dandiset_page`
  (the per-step wait/action state machine, "runStep" in the spec);
* `FlakeyFeeder` (the isolated-worker supervisor: `__call__`, `ensure`,
  `start`, `__exit__`);
* the `PAGES` table and the `Fatality` marker.

External effects (the selenium driver, the pipe, the operating system) are
modelled by explicit environments: each primitive driver call is given its
result (`Except StepExc Unit`) by a `PageEnv`, each pipe `recv` of a retry
attempt is given by a function `Nat → RecvResult`, and process liveness at
the two checks of `__exit__` is given by two booleans.  Wall-clock readings
are rationals (the code uses floats only for elapsed-time bookkeeping; no
claim depends on float rounding).  Side effects that the claims observe
(navigation, waits, screenshots, pipe/process teardown) are recorded as
explicit event lists.
-/

/-- Exceptions that a driver primitive can raise, as the `except` clauses of
`process_dandiset_page` distinguish them: `timeout` is selenium's
`TimeoutException`, `webdriver` a `WebDriverException` that is not a timeout,
`other` any other `Exception` (with its message). -/
inductive StepExc where
  | timeout
  | webdriver (msg : String)
  | other (msg : String)
deriving DecidableEq, Repr

/-- The value `process_dandiset_page` hands back over the pipe: a float
elapsed time on success, the string `"timeout"`, or the stripped message of
an unexpected exception.  Modelled as the tagged union the spec gives it. -/
inductive Outcome where
  | duration (t : ℚ)
  | timeout
  | errorMessage (msg : String)
deriving DecidableEq, Repr

/-- `str.rstrip()` on the message of an unexpected exception
(`return str(exc).rstrip()`). -/
def rstrip (s : String) : String := s.dropRightWhile Char.isWhitespace

/-- Observable side effects of one `process_dandiset_page` call. -/
inductive Ev where
  | unlink (path : String)
  | navigate (url : String)
  | waitNoProgressbar (cls : String) (waitAppear : Nat)
  | runAction
  | waitVisible (cls : String)
  | sleepSec (n : Nat)
  | screenshot (path : String)
deriving DecidableEq, Repr

/-- The `act` callables stored in `PAGES` (only `click_edit` occurs). -/
inductive PageAction where
  | clickEdit
deriving DecidableEq, Repr

/-- Results the environment assigns to the driver primitives of one loop
iteration of `process_dandiset_page`, plus the two `time.monotonic()`
readings. -/
structure PageEnv where
  t0 : ℚ
  t1 : ℚ
  /-- result of `self.driver.get(...)` -/
  navGet : Except StepExc Unit
  /-- result of the disappear-wait inside the initial
  `wait_no_progressbar("v-progress-circular")` (the `urlsuf is None` branch) -/
  initDisappear : Except StepExc Unit
  /-- result of `act(self.driver)` -/
  actRes : Except StepExc Unit
  /-- result of the `wait_cls` visibility wait -/
  readyWait : Except StepExc Unit
  /-- result of the appear-wait inside `wait_no_progressbar(pbar_cls, wait_appear=3)` -/
  pbarAppear : Except StepExc Unit
  /-- result of the disappear-wait inside `wait_no_progressbar(pbar_cls, wait_appear=3)` -/
  pbarDisappear : Except StepExc Unit
deriving Repr

/-- `Webshotter.wait_no_progressbar(cls, wait_appear)`.  When `wait_appear`
is nonzero it first waits for the progress bar to appear; a
`TimeoutException` there returns `False` ("no need to wait -- it did not
come") and skips the disappear wait, while any other exception propagates.
Otherwise (and after a successful appearance) it waits for the bar to
disappear and returns `True`.  `appearEv`/`disappearEv` are the results the
environment assigns to the two `WebDriverWait.until` calls. -/
def wait_no_progressbar (waitAppear : Nat) (appearEv disappearEv : Except StepExc Unit) :
    Except StepExc Bool :=
  if waitAppear ≠ 0 then
    match appearEv with
    | .error .timeout => .ok false
    | .error e => .error e
    | .ok _ =>
      match disappearEv with
      | .ok _ => .ok true
      | .error e => .error e
  else
    match disappearEv with
    | .ok _ => .ok true
    | .error e => .error e

/-- Sequencing inside the `try:` body: if a step raised, the exception
propagates (later steps are not run); otherwise the continuation runs and
the recorded driver calls accumulate in order. -/
def seqEv (a : Except StepExc Unit × List Ev) (k : Unit → Except StepExc ℚ × List Ev) :
    Except StepExc ℚ × List Ev :=
  match a with
  | (.error e, evs) => (.error e, evs)
  | (.ok _, evs) => ((k ()).1, evs ++ (k ()).2)

/-- Step 1 of the `try:` body: with a URL suffix, `driver.get` on the
suffixed dandiset URL; with `urlsuf is None`, `driver.get` on the bare
dandiset URL followed by `wait_no_progressbar("v-progress-circular")`. -/
def navStep (gui_url ds : String) (urlsuf : Option String) (env : PageEnv) :
    Except StepExc Unit × List Ev :=
  match urlsuf with
  | some sfx => (env.navGet, [.navigate (gui_url ++ "/dandiset/" ++ ds ++ sfx)])
  | none =>
    match env.navGet with
    | .error e => (.error e, [.navigate (gui_url ++ "/dandiset/" ++ ds)])
    | .ok _ =>
      ((wait_no_progressbar 0 (.ok ()) env.initDisappear).map fun _ => (),
       [.navigate (gui_url ++ "/dandiset/" ++ ds),
        .waitNoProgressbar "v-progress-circular" 0])

/-- Step 2: `if act is not None: act(self.driver)`. -/
def actStep (act : Option PageAction) (env : PageEnv) : Except StepExc Unit × List Ev :=
  match act with
  | none => (.ok (), [])
  | some _ => (env.actRes, [.runAction])

/-- Step 3: `if wait_cls is not None:` wait for `wait_cls` to be visible. -/
def readyStep (wait_cls : Option String) (env : PageEnv) :
    Except StepExc Unit × List Ev :=
  match wait_cls with
  | none => (.ok (), [])
  | some cls => (env.readyWait, [.waitVisible cls])

/-- Step 4: `if pbar_cls is not None:
`self.wait_no_progressbar(pbar_cls, wait_appear=3)`. -/
def pbarStep (pbar_cls : Option String) (env : PageEnv) :
    Except StepExc Unit × List Ev :=
  match pbar_cls with
  | none => (.ok (), [])
  | some cls =>
    ((wait_no_progressbar 3 env.pbarAppear env.pbarDisappear).map fun _ => (),
     [.waitNoProgressbar cls 3])

/-- The `try:` body of one loop iteration of `process_dandiset_page`
(navigate, optional initial wait, optional action, optional ready-signal
wait, optional progress-bar wait), returning the elapsed time on success
together with the driver calls actually made, in order. -/
def pageBody (gui_url ds : String) (urlsuf : Option String)
    (wait_cls pbar_cls : Option String) (act : Option PageAction) (env : PageEnv) :
    Except StepExc ℚ × List Ev :=
  seqEv (navStep gui_url ds urlsuf env) fun _ =>
  seqEv (actStep act env) fun _ =>
  seqEv (readyStep wait_cls env) fun _ =>
  seqEv (pbarStep pbar_cls env) fun _ =>
  (.ok (env.t1 - env.t0), [])

/-- What a `process_dandiset_page` call does from the caller's view: return
a value, let an exception propagate (`raise` in the `WebDriverException`
handler), or — structurally possible for a `for` loop, never reached here —
fall off the loop and return Python's implicit `None`. -/
inductive PageResult where
  | ret (o : Outcome)
  | raised (e : StepExc)
  | fellThrough
deriving DecidableEq, Repr

/-- The `except` clauses of `process_dandiset_page`: a `TimeoutException`
returns `"timeout"`, a non-timeout `WebDriverException` is re-raised, any
other exception returns its stripped message. -/
def classifyExc : StepExc → PageResult
  | .timeout => .ret .timeout
  | .webdriver m => .raised (.webdriver m)
  | .other m => .ret (.errorMessage (rstrip m))

/-- Control outcome of one iteration of the `for _ in range(3)` loop:
either the function exits (return or raise) or the loop continues. -/
inductive LoopCtl where
  | exitWith (r : PageResult)
  | next
deriving DecidableEq, Repr

/-- One iteration of the loop in `process_dandiset_page`: unlink the stale
screenshot, run the `try:` body, and dispatch on its result — the `else`
clause sleeps 2 s, saves the screenshot and returns the elapsed time.  Every
branch of the live code returns or raises; the `continue` only exists inside
a dead string literal, so `.next` is never produced. -/
def attemptIter (gui_url ds : String) (urlsuf : Option String) (page : String)
    (wait_cls pbar_cls : Option String) (act : Option PageAction) (env : PageEnv) :
    LoopCtl × List Ev :=
  let path := ds ++ "/" ++ page ++ ".png"
  match pageBody gui_url ds urlsuf wait_cls pbar_cls act env with
  | (.ok t, evs) =>
    (.exitWith (.ret (.duration t)),
     .unlink path :: evs ++ [.sleepSec 2, .screenshot path])
  | (.error e, evs) => (.exitWith (classifyExc e), .unlink path :: evs)

/-- The `for _ in range(3)` loop of `process_dandiset_page`; `envs i` is the
environment of iteration `i`.  Falling off the loop returns Python's
implicit `None`, modelled as `.fellThrough`. -/
def pageLoop (gui_url ds : String) (urlsuf : Option String) (page : String)
    (wait_cls pbar_cls : Option String) (act : Option PageAction)
    (envs : Nat → PageEnv) : Nat → Nat → List Ev → PageResult × List Ev
  | _, 0, evs => (.fellThrough, evs)
  | i, fuel + 1, evs =>
    match attemptIter gui_url ds urlsuf page wait_cls pbar_cls act (envs i) with
    | (.exitWith r, evs') => (r, evs ++ evs')
    | (.next, evs') =>
      pageLoop gui_url ds urlsuf page wait_cls pbar_cls act envs (i + 1) fuel (evs ++ evs')

/-- `Webshotter.process_dandiset_page(ds, urlsuf, page, wait_cls, pbar_cls,
act)` — the spec's `runStep`.  `gui_url` is the `self.gui_url` of the
session. -/
def process_dandiset_page (gui_url ds : String) (urlsuf : Option String) (page : String)
    (wait_cls pbar_cls : Option String) (act : Option PageAction)
    (envs : Nat → PageEnv) : PageResult × List Ev :=
  pageLoop gui_url ds urlsuf page wait_cls pbar_cls act envs 0 3 []

/-- The same body with the retry loop removed: exactly one attempt. -/
def runStepOnce (gui_url ds : String) (urlsuf : Option String) (page : String)
    (wait_cls pbar_cls : Option String) (act : Option PageAction) (env : PageEnv) :
    PageResult × List Ev :=
  let path := ds ++ "/" ++ page ++ ".png"
  match pageBody gui_url ds urlsuf wait_cls pbar_cls act env with
  | (.ok t, evs) =>
    (.ret (.duration t), .unlink path :: evs ++ [.sleepSec 2, .screenshot path])
  | (.error e, evs) => (classifyExc e, .unlink path :: evs)

/-- The `PAGES` table: `page ↦ (urlsuf, wait_cls, pbar_cls, act)`. -/
def PAGES : String → Option (Option String × Option String × Option String × Option PageAction)
  | "landing" => some (some "", some "mdi-folder", none, none)
  | "edit-metadata" => some (none, some "mdi-folder", none, some .clickEdit)
  | "view-data" => some (some "/draft/files?location=", none, some "v-progress-linear", none)
  | _ => none

/-! ## The isolated-worker supervisor (`FlakeyFeeder`) -/

/-- State of the worker `Process` as the supervisor can observe it:
`is_alive()` and, once dead, `exitcode`. -/
inductive Proc where
  | running
  | exited (code : Int)
deriving DecidableEq, Repr

/-- Supervisor state: the `process` and `pipe` fields of the dataclass
(both `None` initially; the pipe carries no observable state of its own). -/
structure FlakeyFeeder where
  process : Option Proc
  pipe : Option Unit
deriving DecidableEq, Repr

/-- What `self.pipe.recv()` yields on one retry attempt: `EOFError` (the
worker died, with the exit code its process will report), a `Fatality`
message, or an ordinary outcome value. -/
inductive RecvResult where
  | eof (exitcode : Int)
  | fatality (msg : String)
  | value (y : Outcome)
deriving DecidableEq, Repr

/-- Exceptions `FlakeyFeeder.__call__` / `ensure` can raise. -/
inductive FFErr where
  | keyboardInterrupt (msg : String)
  | runtimeError (msg : String)
deriving DecidableEq, Repr

namespace FlakeyFeeder

/-- `MAX_TRIES: ClassVar[int] = 5` -/
def MAX_TRIES : Nat := 5

/-- `signal.SIGINT` -/
def SIGINT : Int := 2

/-- The dataclass's initial state: `process = None`, `pipe = None`. -/
def init : FlakeyFeeder := ⟨none, none⟩

/-- `FlakeyFeeder.start()`: make a fresh pipe and start a fresh worker
process. -/
def start (_s : FlakeyFeeder) : FlakeyFeeder := ⟨some .running, some ()⟩

/-- `FlakeyFeeder.ensure()`: start a worker if none exists; if the existing
one has died, raise `KeyboardInterrupt` when its exit was caused by SIGINT
(`exitcode == -SIGINT`), otherwise close it and start a replacement. -/
def ensure (s : FlakeyFeeder) : Except FFErr Unit × FlakeyFeeder :=
  match s.process with
  | none => (.ok (), start s)
  | some .running => (.ok (), s)
  | some (.exited code) =>
    if code = -SIGINT then
      (.error (.keyboardInterrupt "Child process received Cntrl-C"), s)
    else
      (.ok (), start s)

/-- `raise RuntimeError("Subprocess failed too many times; giving up")` -/
def giveUpMsg : String := "Subprocess failed too many times; giving up"

/-- `raise RuntimeError(f"Subprocess encountered unrecoverable error: ...")` -/
def fatalMsg (m : String) : String :=
  "Subprocess encountered unrecoverable error: " ++ m

/-- The retry loop of `FlakeyFeeder.__call__`: attempt `i` sends the item
and receives `env i`; on `EOFError` the dead worker is joined (it now shows
the exit code the crash produced) and the loop continues; a `Fatality`
raises at once; a value is returned at once; exhausting the loop raises the
giving-up error. -/
def callAux (env : Nat → RecvResult) : Nat → Nat → FlakeyFeeder →
    Except FFErr Outcome × FlakeyFeeder
  | _, 0, s => (.error (.runtimeError giveUpMsg), s)
  | i, fuel + 1, s =>
    match ensure s with
    | (.error e, s') => (.error e, s')
    | (.ok _, s') =>
      match env i with
      | .eof code => callAux env (i + 1) fuel { s' with process := some (.exited code) }
      | .fatality m => (.error (.runtimeError (fatalMsg m)), s')
      | .value y => (.ok y, s')

/-- `FlakeyFeeder.__call__(*x)`: up to `MAX_TRIES` attempts. -/
def call (s : FlakeyFeeder) (env : Nat → RecvResult) :
    Except FFErr Outcome × FlakeyFeeder :=
  callAux env 0 MAX_TRIES s

/-- Teardown steps of `FlakeyFeeder.__exit__`, in order. -/
inductive CEv where
  | closePipe
  | sleepSec (n : Nat)
  | terminate
  | joinProc (timeoutSec : Nat)
  | killProc
  | closeProc
deriving DecidableEq, Repr

/-- `FlakeyFeeder.__exit__` (the spec's `close`): when a worker exists,
close the pipe, sleep 1 s, terminate the process only if it is still alive,
join with a 2 s bound, kill only if it is alive even after that, close the
process handle and clear both fields.  `aliveAtCheck` / `aliveAfterJoin`
are what the two `is_alive()` calls report. -/
def close (aliveAtCheck aliveAfterJoin : Bool) (s : FlakeyFeeder) :
    FlakeyFeeder × List CEv :=
  match s.process with
  | none => (s, [])
  | some _ =>
    (⟨none, none⟩,
     [CEv.closePipe, CEv.sleepSec 1]
       ++ (if aliveAtCheck then
             [CEv.terminate, CEv.joinProc 2]
               ++ (if aliveAfterJoin then [CEv.killProc] else [])
           else [])
       ++ [CEv.closeProc])

/-- The spec's supervisor-state invariant: `process` and `pipe` are both
present or both absent. -/
def inv (s : FlakeyFeeder) : Prop := s.process.isSome = s.pipe.isSome

instance (s : FlakeyFeeder) : Decidable (inv s) := by
  unfold inv; infer_instance

end FlakeyFeeder

/-! ## Supervisor lemmas -/

namespace FlakeyFeeder

/-- The retry loop consults the attempt environment only at the indices of
the attempts it may still make (`i, …, i + fuel - 1`). -/
theorem callAux_congr (env env' : Nat → RecvResult) (fuel : Nat) :
    ∀ i s, (∀ k, k < fuel → env (i + k) = env' (i + k)) →
      callAux env i fuel s = callAux env' i fuel s := by
  induction fuel with
  | zero => intro i s _; rfl
  | succ n ih =>
    intro i s h
    have h0 : env i = env' i := by simpa using h 0 (Nat.succ_pos _)
    simp only [callAux]
    rcases hens : ensure s with ⟨r, s'⟩
    cases r with
    | error e => rfl
    | ok _ =>
      rw [← h0]
      cases henv : env i with
      | eof c =>
        exact ih (i + 1) _ fun k hk => by
          have := h (k + 1) (by omega)
          simpa [Nat.add_assoc, Nat.add_comm 1 k] using this
      | fatality m => rfl
      | value y => rfl

/-- If the state's worker is not dead-by-interrupt, `ensure` succeeds and
afterwards the worker is running. -/
theorem ensure_ok (s : FlakeyFeeder)
    (hs : ∀ c, s.process = some (Proc.exited c) → c ≠ -SIGINT) :
    (ensure s).1 = .ok () ∧ (ensure s).2.process = some Proc.running
      ∧ ((ensure s).2 = s ∨ (ensure s).2 = start s) := by
  cases hp : s.process with
  | none => simp [ensure, hp, start]
  | some p =>
    cases p with
    | running => simp [ensure, hp]
    | exited c =>
      have hc := hs c hp
      simp [ensure, hp, hc, start]

/-- If every one of the remaining attempts sees the channel close with a
non-interrupt worker exit, the loop exhausts its budget and raises the
giving-up error. -/
theorem callAux_eof (env : Nat → RecvResult) (fuel : Nat) :
    ∀ i s, (∀ c, s.process = some (Proc.exited c) → c ≠ -SIGINT) →
      (∀ k, k < fuel → ∃ c, env (i + k) = .eof c ∧ c ≠ -SIGINT) →
      (callAux env i fuel s).1 = .error (.runtimeError giveUpMsg) := by
  induction fuel with
  | zero => intro i s _ _; rfl
  | succ n ih =>
    intro i s hs h
    obtain ⟨c, hc, hcne⟩ := h 0 (Nat.succ_pos _)
    rw [Nat.add_zero] at hc
    obtain ⟨he1, _, _⟩ := ensure_ok s hs
    simp only [callAux]
    rcases hens : ensure s with ⟨r, s'⟩
    rw [hens] at he1
    cases r with
    | error e => exact absurd he1 (by simp)
    | ok u =>
      rw [hc]
      exact ih (i + 1) _
        (fun c' h' => by
          simp only at h'
          rw [Option.some_inj] at h'
          cases h'
          exact hcne)
        (fun k hk => by
          have := h (k + 1) (by omega)
          simpa [Nat.add_assoc, Nat.add_comm 1 k] using this)

/-- If attempt `j` yields an ordinary value after `j` non-interrupt
crashes, the loop returns that value. -/
theorem callAux_value (env : Nat → RecvResult) (fuel : Nat) :
    ∀ j i s y, j < fuel →
      (∀ c, s.process = some (Proc.exited c) → c ≠ -SIGINT) →
      (∀ k, k < j → ∃ c, env (i + k) = .eof c ∧ c ≠ -SIGINT) →
      env (i + j) = .value y →
      (callAux env i fuel s).1 = .ok y := by
  induction fuel with
  | zero => intro j i s y hj; omega
  | succ n ih =>
    intro j i s y hj hs hpre hv
    obtain ⟨he1, _, _⟩ := ensure_ok s hs
    simp only [callAux]
    rcases hens : ensure s with ⟨r, s'⟩
    rw [hens] at he1
    cases r with
    | error e => exact absurd he1 (by simp)
    | ok u =>
      cases j with
      | zero =>
        rw [Nat.add_zero] at hv
        rw [hv]
      | succ m =>
        obtain ⟨c, hc, hcne⟩ := hpre 0 (Nat.succ_pos _)
        rw [Nat.add_zero] at hc
        rw [hc]
        refine ih m (i + 1) _ y (by omega)
          (fun c' h' => by
            simp only at h'
            rw [Option.some_inj] at h'
            cases h'
            exact hcne)
          (fun k hk => by
            have := hpre (k + 1) (by omega)
            simpa [Nat.add_assoc, Nat.add_comm 1 k] using this)
          (by
            have : i + 1 + m = i + (m + 1) := by omega
            rw [this, hv])

/-- If attempt `j` receives a `Fatality` after `j` non-interrupt crashes,
the loop raises the unrecoverable error built from its message. -/
theorem callAux_fatality (env : Nat → RecvResult) (fuel : Nat) :
    ∀ j i s m, j < fuel →
      (∀ c, s.process = some (Proc.exited c) → c ≠ -SIGINT) →
      (∀ k, k < j → ∃ c, env (i + k) = .eof c ∧ c ≠ -SIGINT) →
      env (i + j) = .fatality m →
      (callAux env i fuel s).1 = .error (.runtimeError (fatalMsg m)) := by
  induction fuel with
  | zero => intro j i s m hj; omega
  | succ n ih =>
    intro j i s m hj hs hpre hv
    obtain ⟨he1, _, _⟩ := ensure_ok s hs
    simp only [callAux]
    rcases hens : ensure s with ⟨r, s'⟩
    rw [hens] at he1
    cases r with
    | error e => exact absurd he1 (by simp)
    | ok u =>
      cases j with
      | zero =>
        rw [Nat.add_zero] at hv
        rw [hv]
      | succ k0 =>
        obtain ⟨c, hc, hcne⟩ := hpre 0 (Nat.succ_pos _)
        rw [Nat.add_zero] at hc
        rw [hc]
        refine ih k0 (i + 1) _ m (by omega)
          (fun c' h' => by
            simp only at h'
            rw [Option.some_inj] at h'
            cases h'
            exact hcne)
          (fun k hk => by
            have := hpre (k + 1) (by omega)
            simpa [Nat.add_assoc, Nat.add_comm 1 k] using this)
          (by
            have : i + 1 + k0 = i + (k0 + 1) := by omega
            rw [this, hv])

theorem inv_init : inv init := rfl

theorem inv_start (s : FlakeyFeeder) : inv (start s) := rfl

theorem inv_ensure (s : FlakeyFeeder) (h : inv s) : inv (ensure s).2 := by
  cases hp : s.process with
  | none => simpa [ensure, hp] using inv_start s
  | some p =>
    cases p with
    | running => simpa [ensure, hp] using h
    | exited c =>
      by_cases hc : c = -SIGINT
      · simpa [ensure, hp, hc] using h
      · simpa [ensure, hp, hc] using inv_start s

/-- When `ensure` succeeds on a state satisfying the invariant, the
resulting state has a running worker and an open pipe. -/
theorem ensure_ok_state (s : FlakeyFeeder) (h : inv s) (u : Unit) (s' : FlakeyFeeder)
    (he : ensure s = (.ok u, s')) :
    s'.process = some Proc.running ∧ s'.pipe = some () := by
  cases hp : s.process with
  | none =>
    simp only [ensure, hp] at he
    have hs' : start s = s' := congrArg Prod.snd he
    rw [← hs']
    simp [start]
  | some p =>
    cases p with
    | running =>
      simp only [ensure, hp] at he
      have hs' : s = s' := congrArg Prod.snd he
      have h' := h
      rw [inv, hp] at h'
      refine ⟨hs' ▸ hp, ?_⟩
      rw [← hs']
      cases hq : s.pipe with
      | none => rw [hq] at h'; simp at h'
      | some v => cases v; rfl
    | exited c =>
      by_cases hc : c = -SIGINT
      · simp [ensure, hp, hc] at he
      · simp only [ensure, hp, if_neg hc] at he
        have hs' : start s = s' := congrArg Prod.snd he
        rw [← hs']
        simp [start]

theorem inv_callAux (env : Nat → RecvResult) (fuel : Nat) :
    ∀ i s, inv s → inv (callAux env i fuel s).2 := by
  induction fuel with
  | zero => intro i s h; exact h
  | succ n ih =>
    intro i s h
    have hens := inv_ensure s h
    simp only [callAux]
    rcases he : ensure s with ⟨r, s'⟩
    rw [he] at hens
    cases r with
    | error e => exact hens
    | ok u =>
      obtain ⟨hproc, hpipe⟩ := ensure_ok_state s h u s' he
      cases henv : env i with
      | eof c =>
        refine ih (i + 1) _ ?_
        simp [inv, hpipe]
      | fatality m => exact hens
      | value y => exact hens

theorem inv_close (a b : Bool) (s : FlakeyFeeder) (h : inv s) :
    inv (close a b s).1 := by
  cases hp : s.process with
  | none => simpa [close, hp] using h
  | some p => simp [close, hp, inv]

end FlakeyFeeder

/-! ## Page-step lemmas -/

theorem seqEv_events (a : Except StepExc Unit × List Ev)
    (k : Unit → Except StepExc ℚ × List Ev) :
    ∃ r, (seqEv a k).2 = a.2 ++ r := by
  rcases a with ⟨r0, evs⟩
  cases r0 with
  | error e => exact ⟨[], by simp [seqEv]⟩
  | ok u => exact ⟨(k ()).2, rfl⟩

theorem pageBody_events (gui_url ds : String) (urlsuf : Option String)
    (wait_cls pbar_cls : Option String) (act : Option PageAction) (env : PageEnv) :
    ∃ r, (pageBody gui_url ds urlsuf wait_cls pbar_cls act env).2
      = (navStep gui_url ds urlsuf env).2 ++ r :=
  seqEv_events _ _

theorem navStep_some (gui_url ds sfx : String) (env : PageEnv) :
    (navStep gui_url ds (some sfx) env).2
      = [Ev.navigate (gui_url ++ "/dandiset/" ++ ds ++ sfx)] := rfl

theorem navStep_none_head (gui_url ds : String) (env : PageEnv) :
    ∃ r, (navStep gui_url ds none env).2
      = Ev.navigate (gui_url ++ "/dandiset/" ++ ds) :: r := by
  cases h : env.navGet with
  | error e => exact ⟨[], by simp [navStep, h]⟩
  | ok u =>
    exact ⟨[Ev.waitNoProgressbar "v-progress-circular" 0], by simp [navStep, h]⟩

theorem navStep_none_ok (gui_url ds : String) (env : PageEnv)
    (h : env.navGet = Except.ok ()) :
    (navStep gui_url ds none env).2
      = [Ev.navigate (gui_url ++ "/dandiset/" ++ ds),
         Ev.waitNoProgressbar "v-progress-circular" 0] := by
  simp [navStep, h]

theorem runStepOnce_events (gui_url ds : String) (urlsuf : Option String) (page : String)
    (wait_cls pbar_cls : Option String) (act : Option PageAction) (env : PageEnv) :
    ∃ r, (runStepOnce gui_url ds urlsuf page wait_cls pbar_cls act env).2
      = Ev.unlink (ds ++ "/" ++ page ++ ".png")
          :: (pageBody gui_url ds urlsuf wait_cls pbar_cls act env).2 ++ r := by
  unfold runStepOnce
  rcases h : pageBody gui_url ds urlsuf wait_cls pbar_cls act env with ⟨r0, evs⟩
  cases r0 with
  | ok t =>
    exact ⟨[Ev.sleepSec 2, Ev.screenshot (ds ++ "/" ++ page ++ ".png")], by simp⟩
  | error e => exact ⟨[], by simp⟩

/-- The 3-iteration loop of `process_dandiset_page` never reaches a second
iteration: every branch of the first attempt returns or raises. -/
theorem pdp_eq_once (gui_url ds : String) (urlsuf : Option String) (page : String)
    (wait_cls pbar_cls : Option String) (act : Option PageAction)
    (envs : Nat → PageEnv) :
    process_dandiset_page gui_url ds urlsuf page wait_cls pbar_cls act envs
      = runStepOnce gui_url ds urlsuf page wait_cls pbar_cls act (envs 0) := by
  unfold process_dandiset_page pageLoop attemptIter runStepOnce
  rcases h : pageBody gui_url ds urlsuf wait_cls pbar_cls act (envs 0) with ⟨r0, evs⟩
  cases r0 <;> simp

/-! ## Claims -/

/-- C10: every execution of `process_dandiset_page` is decided in the first
iteration of its internal 3-iteration retry loop — each path returns a value
or raises — so the function is observably equivalent to the loop-free body
`runStepOnce`, and never falls off the loop (never returns Python's
implicit `None`). -/
theorem C10_no_second_iteration (gui_url ds : String) (urlsuf : Option String)
    (page : String) (wait_cls pbar_cls : Option String) (act : Option PageAction)
    (envs : Nat → PageEnv) :
    process_dandiset_page gui_url ds urlsuf page wait_cls pbar_cls act envs
        = runStepOnce gui_url ds urlsuf page wait_cls pbar_cls act (envs 0)
    ∧ (process_dandiset_page gui_url ds urlsuf page wait_cls pbar_cls act envs).1
        ≠ PageResult.fellThrough := by
  refine ⟨pdp_eq_once gui_url ds urlsuf page wait_cls pbar_cls act envs, ?_⟩
  rw [pdp_eq_once]
  unfold runStepOnce
  rcases h : pageBody gui_url ds urlsuf wait_cls pbar_cls act (envs 0) with ⟨r0, evs⟩
  cases r0 with
  | ok t => simp
  | error e => cases e <;> simp [classifyExc]

/-- C3 (counterexample): the claim says `process_dandiset_page` never lets
an exception escape; but when `driver.get` raises a non-timeout
`WebDriverException` (e.g. "invalid session id"), the function re-raises
it instead of returning an outcome. -/
theorem C3_counterexample :
    (process_dandiset_page "https://dandiarchive.org" "000003" (some "") "landing"
        (some "mdi-folder") none none
        (fun _ => ⟨0, 1, Except.error (StepExc.webdriver "invalid session id"),
                   Except.ok (), Except.ok (), Except.ok (), Except.ok (),
                   Except.ok ()⟩)).1
      = PageResult.raised (StepExc.webdriver "invalid session id") := rfl

/-- C3 (amended): during the navigate/act/wait steps, a timeout makes
`process_dandiset_page` return the `Timeout` outcome and any non-WebDriver
exception makes it return `ErrorMessage` with the exception's stripped
message; the only exceptions that escape are non-timeout
`WebDriverException`s, which are re-raised. -/
theorem C3_exception_classification (gui_url ds : String) (urlsuf : Option String)
    (page : String) (wait_cls pbar_cls : Option String) (act : Option PageAction)
    (envs : Nat → PageEnv) :
    (∀ e, (process_dandiset_page gui_url ds urlsuf page wait_cls pbar_cls act envs).1
          = PageResult.raised e →
        ∃ m, e = StepExc.webdriver m)
    ∧ (∀ evs, pageBody gui_url ds urlsuf wait_cls pbar_cls act (envs 0)
          = (Except.error StepExc.timeout, evs) →
        (process_dandiset_page gui_url ds urlsuf page wait_cls pbar_cls act envs).1
          = PageResult.ret Outcome.timeout)
    ∧ (∀ m evs, pageBody gui_url ds urlsuf wait_cls pbar_cls act (envs 0)
          = (Except.error (StepExc.other m), evs) →
        (process_dandiset_page gui_url ds urlsuf page wait_cls pbar_cls act envs).1
          = PageResult.ret (Outcome.errorMessage (rstrip m)))
    ∧ (∀ m evs, pageBody gui_url ds urlsuf wait_cls pbar_cls act (envs 0)
          = (Except.error (StepExc.webdriver m), evs) →
        (process_dandiset_page gui_url ds urlsuf page wait_cls pbar_cls act envs).1
          = PageResult.raised (StepExc.webdriver m)) := by
  refine ⟨?_, ?_, ?_, ?_⟩
  · intro e he
    rw [pdp_eq_once] at he
    unfold runStepOnce at he
    rcases h : pageBody gui_url ds urlsuf wait_cls pbar_cls act (envs 0) with ⟨r0, evs⟩
    rw [h] at he
    cases r0 with
    | ok t => simp at he
    | error e' =>
      cases e' with
      | timeout => simp [classifyExc] at he
      | webdriver m => simp only [classifyExc] at he; exact ⟨m, by simpa using he.symm⟩
      | other m => simp [classifyExc] at he
  · intro evs h
    rw [pdp_eq_once]
    unfold runStepOnce
    rw [h]
    simp [classifyExc]
  · intro m evs h
    rw [pdp_eq_once]
    unfold runStepOnce
    rw [h]
    simp [classifyExc]
  · intro m evs h
    rw [pdp_eq_once]
    unfold runStepOnce
    rw [h]
    simp [classifyExc]

/-- C3 witness: the amended classification applied at concrete inputs, one
per exception class. -/
theorem C3_exception_classification_witness :
    (∃ m, StepExc.webdriver "boom" = StepExc.webdriver m)
    ∧ (process_dandiset_page "g" "d" (some "") "p" none none none
        (fun _ => ⟨0, 1, Except.error StepExc.timeout, Except.ok (), Except.ok (),
                   Except.ok (), Except.ok (), Except.ok ()⟩)).1
        = PageResult.ret Outcome.timeout
    ∧ (process_dandiset_page "g" "d" (some "") "p" none none none
        (fun _ => ⟨0, 1, Except.error (StepExc.other "bad "), Except.ok (), Except.ok (),
                   Except.ok (), Except.ok (), Except.ok ()⟩)).1
        = PageResult.ret (Outcome.errorMessage (rstrip "bad ")) := by
  refine ⟨?_, ?_, ?_⟩
  · exact (C3_exception_classification "g" "d" (some "") "p" none none none
      (fun _ => ⟨0, 1, Except.error (StepExc.webdriver "boom"), Except.ok (), Except.ok (),
                 Except.ok (), Except.ok (), Except.ok ()⟩)).1
      (StepExc.webdriver "boom") rfl
  · exact (C3_exception_classification "g" "d" (some "") "p" none none none
      (fun _ => ⟨0, 1, Except.error StepExc.timeout, Except.ok (), Except.ok (),
                 Except.ok (), Except.ok (), Except.ok ()⟩)).2.1
      [Ev.navigate "g/dandiset/d"] rfl
  · exact (C3_exception_classification "g" "d" (some "") "p" none none none
      (fun _ => ⟨0, 1, Except.error (StepExc.other "bad "), Except.ok (), Except.ok (),
                 Except.ok (), Except.ok (), Except.ok ()⟩)).2.2.1
      "bad " [Ev.navigate "g/dandiset/d"] rfl

/-- C5 (counterexample): the claim says that with the "no navigation"
sentinel (`urlsuf is None`) no navigation is performed; but the code still
calls `driver.get` on the bare dandiset URL in that branch. -/
theorem C5_counterexample :
    Ev.navigate "https://dandiarchive.org/dandiset/000005"
      ∈ (process_dandiset_page "https://dandiarchive.org" "000005" none "edit-metadata"
          (some "mdi-folder") none (some PageAction.clickEdit)
          (fun _ => ⟨0, 1, Except.ok (), Except.ok (), Except.ok (), Except.ok (),
                     Except.ok (), Except.ok ()⟩)).2 := by
  decide

/-- C5 (amended): with a URL suffix present, `process_dandiset_page`
navigates to the suffixed dandiset URL; with the "no navigation" sentinel
(`urlsuf is None`) it still navigates, but to the bare dandiset URL (no
suffix), and — when that navigation succeeds — then waits for the initial
busy signal `v-progress-circular` to disappear before proceeding. -/
theorem C5_navigation (gui_url ds page : String) (wait_cls pbar_cls : Option String)
    (act : Option PageAction) (envs : Nat → PageEnv) :
    (∀ sfx, ∃ rest,
        (process_dandiset_page gui_url ds (some sfx) page wait_cls pbar_cls act envs).2
          = Ev.unlink (ds ++ "/" ++ page ++ ".png")
              :: Ev.navigate (gui_url ++ "/dandiset/" ++ ds ++ sfx) :: rest)
    ∧ (∃ rest,
        (process_dandiset_page gui_url ds none page wait_cls pbar_cls act envs).2
          = Ev.unlink (ds ++ "/" ++ page ++ ".png")
              :: Ev.navigate (gui_url ++ "/dandiset/" ++ ds) :: rest)
    ∧ ((envs 0).navGet = Except.ok () →
        ∃ rest,
          (process_dandiset_page gui_url ds none page wait_cls pbar_cls act envs).2
            = Ev.unlink (ds ++ "/" ++ page ++ ".png")
                :: Ev.navigate (gui_url ++ "/dandiset/" ++ ds)
                :: Ev.waitNoProgressbar "v-progress-circular" 0 :: rest) := by
  refine ⟨?_, ?_, ?_⟩
  · intro sfx
    rw [pdp_eq_once]
    obtain ⟨r1, h1⟩ := runStepOnce_events gui_url ds (some sfx) page wait_cls pbar_cls act (envs 0)
    obtain ⟨r2, h2⟩ := pageBody_events gui_url ds (some sfx) wait_cls pbar_cls act (envs 0)
    rw [h1, h2, navStep_some]
    exact ⟨r2 ++ r1, by simp⟩
  · rw [pdp_eq_once]
    obtain ⟨r1, h1⟩ := runStepOnce_events gui_url ds none page wait_cls pbar_cls act (envs 0)
    obtain ⟨r2, h2⟩ := pageBody_events gui_url ds none wait_cls pbar_cls act (envs 0)
    obtain ⟨r3, h3⟩ := navStep_none_head gui_url ds (envs 0)
    rw [h1, h2, h3]
    exact ⟨r3 ++ r2 ++ r1, by simp⟩
  · intro hnav
    rw [pdp_eq_once]
    obtain ⟨r1, h1⟩ := runStepOnce_events gui_url ds none page wait_cls pbar_cls act (envs 0)
    obtain ⟨r2, h2⟩ := pageBody_events gui_url ds none wait_cls pbar_cls act (envs 0)
    rw [h1, h2, navStep_none_ok gui_url ds (envs 0) hnav]
    exact ⟨r2 ++ r1, by simp⟩

/-- C5 witness: the amended navigation behaviour at a concrete input whose
navigation succeeds. -/
theorem C5_navigation_witness :
    ∃ rest,
      (process_dandiset_page "https://dandiarchive.org" "000006" none "edit-metadata"
          (some "mdi-folder") none (some PageAction.clickEdit)
          (fun _ => ⟨0, 1, Except.ok (), Except.ok (), Except.ok (), Except.ok (),
                     Except.ok (), Except.ok ()⟩)).2
        = Ev.unlink "000006/edit-metadata.png"
            :: Ev.navigate "https://dandiarchive.org/dandiset/000006"
            :: Ev.waitNoProgressbar "v-progress-circular" 0 :: rest :=
  (C5_navigation "https://dandiarchive.org" "000006" "edit-metadata"
      (some "mdi-folder") none (some PageAction.clickEdit)
      (fun _ => ⟨0, 1, Except.ok (), Except.ok (), Except.ok (), Except.ok (),
                 Except.ok (), Except.ok ()⟩)).2.2 rfl

/-- C6: in `wait_no_progressbar` with a positive grace period, a timeout of
the appear-wait is swallowed — the call returns `False` without consulting
the disappear-wait at all — and a step whose progress-bar signal never
appears within the grace period still completes with a `Duration` outcome. -/
theorem C6_grace_skip (n : Nat) (hn : n ≠ 0) (gui_url ds sfx page cls : String)
    (d : Except StepExc Unit) (envs : Nat → PageEnv)
    (hnav : (envs 0).navGet = Except.ok ())
    (hpb : (envs 0).pbarAppear = Except.error StepExc.timeout) :
    wait_no_progressbar n (Except.error StepExc.timeout) d = Except.ok false
    ∧ (process_dandiset_page gui_url ds (some sfx) page none (some cls) none envs).1
        = PageResult.ret (Outcome.duration ((envs 0).t1 - (envs 0).t0)) := by
  constructor
  · simp [wait_no_progressbar, hn]
  · rw [pdp_eq_once]
    unfold runStepOnce pageBody
    simp [navStep, actStep, readyStep, pbarStep, seqEv, wait_no_progressbar, Except.map, hnav, hpb]

/-- C6 witness: the grace-period skip at a concrete input — note the
disappear-wait is set to raise, which shows it is never consulted. -/
theorem C6_grace_skip_witness :
    wait_no_progressbar 3 (Except.error StepExc.timeout)
        (Except.error (StepExc.webdriver "never consulted")) = Except.ok false
    ∧ (process_dandiset_page "https://dandiarchive.org" "ABC123"
          (some "/draft/files?location=") "view-data" none (some "v-progress-linear") none
          (fun _ => ⟨0, 1, Except.ok (), Except.ok (), Except.ok (), Except.ok (),
                     Except.error StepExc.timeout,
                     Except.error (StepExc.webdriver "never consulted")⟩)).1
        = PageResult.ret (Outcome.duration 1) := by
  have h := C6_grace_skip 3 (by decide) "https://dandiarchive.org" "ABC123"
    "/draft/files?location=" "view-data" "v-progress-linear"
    (Except.error (StepExc.webdriver "never consulted"))
    (fun _ => ⟨0, 1, Except.ok (), Except.ok (), Except.ok (), Except.ok (),
               Except.error StepExc.timeout,
               Except.error (StepExc.webdriver "never consulted")⟩)
    rfl rfl
  simpa using h

/-- C7 (counterexample): the claim says the `landing` StepSpec has no
busy/ready signal and that no wait-related call is invoked; but `PAGES`
gives `landing` the ready signal `mdi-folder`, and a fully successful run
does invoke the corresponding visibility wait. -/
theorem C7_counterexample :
    PAGES "landing" = some (some "", some "mdi-folder", none, none)
    ∧ Ev.waitVisible "mdi-folder"
        ∈ (process_dandiset_page "https://dandiarchive.org" "ABC123" (some "") "landing"
            (some "mdi-folder") none none
            (fun _ => ⟨0, 1, Except.ok (), Except.ok (), Except.ok (), Except.ok (),
                       Except.ok (), Except.ok ()⟩)).2 := by
  exact ⟨rfl, by decide⟩

/-- C7 (amended): for item `("ABC123", "landing")` — whose StepSpec has the
empty URL suffix, the ready signal `mdi-folder`, no busy signal and no
action — a successful run returns `Duration(t1 - t0)` with `t1 - t0 ≥ 0`,
takes a screenshot at `ABC123/landing.png`, and makes exactly one
wait-related call: the ready-signal visibility wait (no busy-signal wait). -/
theorem C7_landing (envs : Nat → PageEnv)
    (hnav : (envs 0).navGet = Except.ok ())
    (hready : (envs 0).readyWait = Except.ok ())
    (ht : (envs 0).t0 ≤ (envs 0).t1) :
    process_dandiset_page "https://dandiarchive.org" "ABC123" (some "") "landing"
        (some "mdi-folder") none none envs
      = (PageResult.ret (Outcome.duration ((envs 0).t1 - (envs 0).t0)),
         [Ev.unlink "ABC123/landing.png",
          Ev.navigate "https://dandiarchive.org/dandiset/ABC123",
          Ev.waitVisible "mdi-folder",
          Ev.sleepSec 2,
          Ev.screenshot "ABC123/landing.png"])
    ∧ 0 ≤ (envs 0).t1 - (envs 0).t0 := by
  constructor
  · rw [pdp_eq_once]
    unfold runStepOnce pageBody
    simp [navStep, actStep, readyStep, pbarStep, seqEv, hnav, hready]
  · exact sub_nonneg.mpr ht

/-- C7 witness: the amended landing-page behaviour at a concrete input. -/
theorem C7_landing_witness :
    process_dandiset_page "https://dandiarchive.org" "ABC123" (some "") "landing"
        (some "mdi-folder") none none
        (fun _ => ⟨0, 1, Except.ok (), Except.ok (), Except.ok (), Except.ok (),
                   Except.ok (), Except.ok ()⟩)
      = (PageResult.ret (Outcome.duration 1),
         [Ev.unlink "ABC123/landing.png",
          Ev.navigate "https://dandiarchive.org/dandiset/ABC123",
          Ev.waitVisible "mdi-folder",
          Ev.sleepSec 2,
          Ev.screenshot "ABC123/landing.png"]) := by
  have h := (C7_landing
    (fun _ => ⟨0, 1, Except.ok (), Except.ok (), Except.ok (), Except.ok (),
               Except.ok (), Except.ok ()⟩)
    rfl rfl (by norm_num)).1
  simpa using h

/-- Unfolding one step of the retry loop when `ensure` raises. -/
theorem callAux_ensure_error (env : Nat → RecvResult) (i fuel : Nat)
    (s s' : FlakeyFeeder) (e : FFErr)
    (he : FlakeyFeeder.ensure s = (Except.error e, s')) :
    FlakeyFeeder.callAux env i (fuel + 1) s = (Except.error e, s') := by
  simp only [FlakeyFeeder.callAux, he]

/-- C1: `FlakeyFeeder.__call__` makes at most `MAX_TRIES = 5` attempts per
item: its behaviour depends only on the first 5 attempt results; 5
consecutive channel-closed (non-interrupt crash) attempts raise the
giving-up error with no 6th attempt; and the first attempt that yields an
ordinary outcome returns it immediately, ending the retry loop. -/
theorem C1_retry_budget (s : FlakeyFeeder) (env env' : Nat → RecvResult)
    (hs : ∀ c, s.process = some (Proc.exited c) → c ≠ -FlakeyFeeder.SIGINT) :
    ((∀ i, i < FlakeyFeeder.MAX_TRIES → env i = env' i) →
        FlakeyFeeder.call s env = FlakeyFeeder.call s env')
    ∧ ((∀ i, i < FlakeyFeeder.MAX_TRIES →
          ∃ c, env i = RecvResult.eof c ∧ c ≠ -FlakeyFeeder.SIGINT) →
        (FlakeyFeeder.call s env).1
          = Except.error (FFErr.runtimeError FlakeyFeeder.giveUpMsg))
    ∧ (∀ j y, j < FlakeyFeeder.MAX_TRIES → env j = RecvResult.value y →
        (∀ i, i < j → ∃ c, env i = RecvResult.eof c ∧ c ≠ -FlakeyFeeder.SIGINT) →
        (FlakeyFeeder.call s env).1 = Except.ok y) := by
  refine ⟨?_, ?_, ?_⟩
  · intro h
    exact FlakeyFeeder.callAux_congr env env' FlakeyFeeder.MAX_TRIES 0 s
      (fun k hk => by simpa using h k hk)
  · intro h
    exact FlakeyFeeder.callAux_eof env FlakeyFeeder.MAX_TRIES 0 s hs
      (fun k hk => by simpa using h k hk)
  · intro j y hj hv hpre
    exact FlakeyFeeder.callAux_value env FlakeyFeeder.MAX_TRIES j 0 s y hj hs
      (fun k hk => by simpa using hpre k hk) (by simpa using hv)

/-- C1 witness: a run of 5 straight crashes gives up with the budget error
and agrees with any environment that only differs from the 6th attempt on;
a success on the 3rd attempt is returned at once. -/
theorem C1_retry_budget_witness :
    FlakeyFeeder.call FlakeyFeeder.init (fun _ => RecvResult.eof 1)
        = FlakeyFeeder.call FlakeyFeeder.init
            (fun i => if i < 5 then RecvResult.eof 1
                      else RecvResult.value (Outcome.duration 0))
    ∧ (FlakeyFeeder.call FlakeyFeeder.init (fun _ => RecvResult.eof 1)).1
        = Except.error (FFErr.runtimeError FlakeyFeeder.giveUpMsg)
    ∧ (FlakeyFeeder.call FlakeyFeeder.init
          (fun i => if i < 2 then RecvResult.eof 1
                    else RecvResult.value (Outcome.duration 7))).1
        = Except.ok (Outcome.duration 7) := by
  have h1 := C1_retry_budget FlakeyFeeder.init (fun _ => RecvResult.eof 1)
      (fun i => if i < 5 then RecvResult.eof 1
                else RecvResult.value (Outcome.duration 0))
      (by intro c hc; simp [FlakeyFeeder.init] at hc)
  have h2 := C1_retry_budget FlakeyFeeder.init
      (fun i => if i < 2 then RecvResult.eof 1
                else RecvResult.value (Outcome.duration 7))
      (fun _ => RecvResult.eof 1)
      (by intro c hc; simp [FlakeyFeeder.init] at hc)
  refine ⟨?_, ?_, ?_⟩
  · refine h1.1 ?_
    intro i hi
    have hi' : i < 5 := hi
    simp [hi']
  · exact h1.2.1 (fun i hi => ⟨1, rfl, by decide⟩)
  · refine h2.2.2 2 (Outcome.duration 7) (by decide) (by simp) ?_
    intro i hi
    exact ⟨1, by simp [hi], by decide⟩

/-- C2: a `Fatality` received at any attempt immediately raises the
unrecoverable error built from its message, with zero further retries —
the result does not depend on the attempt environment past that index. -/
theorem C2_fatality (s : FlakeyFeeder) (env : Nat → RecvResult) (j : Nat) (m : String)
    (hs : ∀ c, s.process = some (Proc.exited c) → c ≠ -FlakeyFeeder.SIGINT)
    (hj : j < FlakeyFeeder.MAX_TRIES)
    (hf : env j = RecvResult.fatality m)
    (hpre : ∀ i, i < j → ∃ c, env i = RecvResult.eof c ∧ c ≠ -FlakeyFeeder.SIGINT) :
    (FlakeyFeeder.call s env).1
      = Except.error (FFErr.runtimeError (FlakeyFeeder.fatalMsg m))
    ∧ ∀ env', (∀ i, i ≤ j → env' i = env i) →
        (FlakeyFeeder.call s env').1
          = Except.error (FFErr.runtimeError (FlakeyFeeder.fatalMsg m)) := by
  constructor
  · exact FlakeyFeeder.callAux_fatality env FlakeyFeeder.MAX_TRIES j 0 s m hj hs
      (fun k hk => by simpa using hpre k hk) (by simpa using hf)
  · intro env' ha
    refine FlakeyFeeder.callAux_fatality env' FlakeyFeeder.MAX_TRIES j 0 s m hj hs ?_ ?_
    · intro k hk
      obtain ⟨c, hc, hcn⟩ := hpre k hk
      refine ⟨c, ?_, hcn⟩
      have := ha k (by omega)
      simpa [this] using hc
    · have := ha j le_rfl
      simpa [this] using hf

/-- C2 witness: a `Fatality` on the 2nd attempt, after one crash, raises
the unrecoverable error. -/
theorem C2_fatality_witness :
    (FlakeyFeeder.call FlakeyFeeder.init
        (fun i => if i = 0 then RecvResult.eof 1 else RecvResult.fatality "boom")).1
      = Except.error (FFErr.runtimeError (FlakeyFeeder.fatalMsg "boom")) :=
  (C2_fatality FlakeyFeeder.init
      (fun i => if i = 0 then RecvResult.eof 1 else RecvResult.fatality "boom")
      1 "boom"
      (by intro c hc; simp [FlakeyFeeder.init] at hc)
      (by decide) rfl
      (by
        intro i hi
        have h0 : i = 0 := by omega
        subst h0
        exact ⟨1, rfl, by decide⟩)).1

/-- C4: when the worker process exists but has exited, an exit caused by
SIGINT makes `FlakeyFeeder.__call__` raise `KeyboardInterrupt` without
restarting (state unchanged), while any other exit code makes `ensure`
treat the worker as crashed and start a replacement. -/
theorem C4_interrupt (s : FlakeyFeeder) (env : Nat → RecvResult) (c : Int)
    (h : s.process = some (Proc.exited c)) :
    (c = -FlakeyFeeder.SIGINT →
      FlakeyFeeder.call s env
        = (Except.error (FFErr.keyboardInterrupt "Child process received Cntrl-C"), s))
    ∧ (c ≠ -FlakeyFeeder.SIGINT →
      FlakeyFeeder.ensure s = (Except.ok (), FlakeyFeeder.start s)) := by
  constructor
  · intro hc
    exact callAux_ensure_error env 0 4 s s _
      (by simp [FlakeyFeeder.ensure, h, hc])
  · intro hc
    simp [FlakeyFeeder.ensure, h, hc]

/-- C4 witness: a worker dead with exit code `-SIGINT` interrupts the run;
one dead with exit code 1 is restarted. -/
theorem C4_interrupt_witness :
    FlakeyFeeder.call ⟨some (Proc.exited (-2)), some ()⟩ (fun _ => RecvResult.eof 1)
        = (Except.error (FFErr.keyboardInterrupt "Child process received Cntrl-C"),
           (⟨some (Proc.exited (-2)), some ()⟩ : FlakeyFeeder))
    ∧ FlakeyFeeder.ensure ⟨some (Proc.exited 1), some ()⟩
        = (Except.ok (), FlakeyFeeder.start ⟨some (Proc.exited 1), some ()⟩) :=
  ⟨(C4_interrupt ⟨some (Proc.exited (-2)), some ()⟩ (fun _ => RecvResult.eof 1) (-2)
      rfl).1 (by decide),
   (C4_interrupt ⟨some (Proc.exited 1), some ()⟩ (fun _ => RecvResult.eof 1) 1
      rfl).2 (by decide)⟩

/-- C8: the supervisor invariant — `process` and `pipe` both present or
both absent — holds in the initial state and is preserved by `start`,
`ensure`, `__call__` and `__exit__`. -/
theorem C8_invariant :
    FlakeyFeeder.inv FlakeyFeeder.init
    ∧ (∀ s, FlakeyFeeder.inv s → FlakeyFeeder.inv (FlakeyFeeder.start s))
    ∧ (∀ s, FlakeyFeeder.inv s → FlakeyFeeder.inv (FlakeyFeeder.ensure s).2)
    ∧ (∀ s env, FlakeyFeeder.inv s → FlakeyFeeder.inv (FlakeyFeeder.call s env).2)
    ∧ (∀ s a b, FlakeyFeeder.inv s → FlakeyFeeder.inv (FlakeyFeeder.close a b s).1) :=
  ⟨FlakeyFeeder.inv_init,
   fun s _ => FlakeyFeeder.inv_start s,
   fun s h => FlakeyFeeder.inv_ensure s h,
   fun s env h => FlakeyFeeder.inv_callAux env FlakeyFeeder.MAX_TRIES 0 s h,
   fun s a b h => FlakeyFeeder.inv_close a b s h⟩

/-- C8 witness: invariant preservation applied to a fully crashing call
from the initial state and a teardown of a live worker. -/
theorem C8_invariant_witness :
    FlakeyFeeder.inv (FlakeyFeeder.call FlakeyFeeder.init (fun _ => RecvResult.eof 1)).2
    ∧ FlakeyFeeder.inv (FlakeyFeeder.close true true ⟨some Proc.running, some ()⟩).1 :=
  ⟨C8_invariant.2.2.2.1 FlakeyFeeder.init (fun _ => RecvResult.eof 1) (by decide),
   C8_invariant.2.2.2.2 ⟨some Proc.running, some ()⟩ true true (by decide)⟩

/-- C9: `FlakeyFeeder.__exit__` with a worker present closes the pipe
first, then (escalating) terminates only a still-alive worker, joins with a
2-second bound, kills only if it is alive even after that, and ends with
the process handle released — afterwards both fields are absent.  With no
worker present it does nothing. -/
theorem C9_teardown (s : FlakeyFeeder) (a b : Bool) :
    (s.process = none → FlakeyFeeder.close a b s = (s, []))
    ∧ (∀ p, s.process = some p →
        (FlakeyFeeder.close a b s).1.process = none
        ∧ (FlakeyFeeder.close a b s).1.pipe = none
        ∧ (FlakeyFeeder.close a b s).2.head? = some FlakeyFeeder.CEv.closePipe
        ∧ (FlakeyFeeder.close a b s).2.getLast? = some FlakeyFeeder.CEv.closeProc
        ∧ (FlakeyFeeder.CEv.terminate ∈ (FlakeyFeeder.close a b s).2 ↔ a = true)
        ∧ (FlakeyFeeder.CEv.joinProc 2 ∈ (FlakeyFeeder.close a b s).2 ↔ a = true)
        ∧ (FlakeyFeeder.CEv.killProc ∈ (FlakeyFeeder.close a b s).2
            ↔ a = true ∧ b = true)) := by
  constructor
  · intro hp
    simp [FlakeyFeeder.close, hp]
  · intro p hp
    cases a <;> cases b <;>
      simp [FlakeyFeeder.close, hp, List.getLast?]

/-- C9 witness: teardown of a live worker that survives `terminate` (kill
escalation), and teardown with no worker. -/
theorem C9_teardown_witness :
    FlakeyFeeder.close true true FlakeyFeeder.init = (FlakeyFeeder.init, [])
    ∧ ((FlakeyFeeder.close true true ⟨some Proc.running, some ()⟩).1.process = none
        ∧ (FlakeyFeeder.CEv.killProc
            ∈ (FlakeyFeeder.close true true ⟨some Proc.running, some ()⟩).2
          ↔ true = true ∧ true = true)) :=
  ⟨(C9_teardown FlakeyFeeder.init true true).1 rfl,
   ((C9_teardown ⟨some Proc.running, some ()⟩ true true).2 Proc.running rfl).1,
   ((C9_teardown ⟨some Proc.running, some ()⟩ true true).2 Proc.running rfl).2.2.2.2.2.2⟩

/-- C10 witness: loop-free equivalence at a concrete input. -/
theorem C10_no_second_iteration_witness :
    process_dandiset_page "g" "d" (some "") "p" none none none
        (fun _ => ⟨0, 1, Except.ok (), Except.ok (), Except.ok (), Except.ok (),
                   Except.ok (), Except.ok ()⟩)
      = runStepOnce "g" "d" (some "") "p" none none none
          ⟨0, 1, Except.ok (), Except.ok (), Except.ok (), Except.ok (),
           Except.ok (), Except.ok ()⟩
    ∧ (process_dandiset_page "g" "d" (some "") "p" none none none
        (fun _ => ⟨0, 1, Except.ok (), Except.ok (), Except.ok (), Except.ok (),
                   Except.ok (), Except.ok ()⟩)).1 ≠ PageResult.fellThrough :=
  C10_no_second_iteration "g" "d" (some "") "p" none none none
    (fun _ => ⟨0, 1, Except.ok (), Except.ok (), Except.ok (), Except.ok (),
               Except.ok (), Except.ok ()⟩)
